import Mathlib

/-!
Shallow embedding of the termu PTY library (src/src/lib.rs).

The library talks to the operating system through raw system calls
(posix_openpt, grantpt, unlockpt, fcntl, ptsname_r, open, dup/try_clone,
spawn, close, setsid, ioctl, read, write).  We model the OS as an oracle:
a function from the call index and the request to the raw result.  Every
embedded operation threads an explicit `OS` state that records the call
count, a log of performed system calls, and the current `errno` value
(the value `io::Error::last_os_error()` reads).

Raw results are modelled as `Except Errno Int`: the nix wrappers
(`Errno::result`) turn a raw `-1` return into the error case carrying the
errno, and any other machine integer into the success case.
-/

namespace Termu

/-- An errno code carried by a failing system call. -/
abbrev Errno := Nat

/-- Result of one raw system call, as surfaced by the nix wrappers:
a machine integer on success, an errno on failure. -/
abbrev SysRet := Except Errno Int

/-- Terminal window size, mirroring nix `Winsize`
(ws_row, ws_col, ws_xpixel, ws_ypixel). -/
structure Winsize where
  ws_row : Nat
  ws_col : Nat
  ws_xpixel : Nat
  ws_ypixel : Nat
deriving DecidableEq

/-- The system-call requests the library issues.  File descriptors are
modelled as integers; the subordinate path name returned by `ptsname_r`
is modelled as an opaque integer token consumed by `openPts`. -/
inductive SysReq where
  | posixOpenpt (oflag : Int)
  | grantpt (fd : Int)
  | unlockpt (fd : Int)
  | fcntlGetfd (fd : Int)
  | fcntlSetfd (fd : Int) (flags : Int)
  | ptsnameR (fd : Int)
  | openPts (name : Int)
  | tryClone (fd : Int)
  | spawn
  | closeFd (fd : Int)
  | setsid
  | ioctlSetCtty
  | ioctlSetWinsz (fd : Int) (size : Winsize)
  | readFd (fd : Int) (len : Nat)
  | writeFd (fd : Int) (len : Nat)
deriving DecidableEq

/-- The OS model: an oracle giving the raw result of the k-th system call
for a given request, the number of calls made so far, the log of calls
performed with their results, and the current errno value. -/
structure OS where
  oracle : Nat → SysReq → SysRet
  count : Nat
  log : List (SysReq × SysRet)
  errno : Errno

/-- Perform one system call: consult the oracle at the current call
index, append the event to the log, and update errno on failure. -/
def sys (req : SysReq) (s : OS) : SysRet × OS :=
  let r := s.oracle s.count req
  (r, { s with
        count := s.count + 1
        log := s.log ++ [(req, r)]
        errno := match r with | .error e => e | .ok _ => s.errno })

/-- A raw libc-style call (`close`, `setsid`, `ioctl` in the source):
returns the machine integer, with failures surfacing as `-1` and errno
set as a side effect. -/
def raw (req : SysReq) (s : OS) : Int × OS :=
  match sys req s with
  | (.ok n, s) => (n, s)
  | (.error _, s) => (-1, s)

/-- The error kinds of `std::io::ErrorKind` the library mentions. -/
inductive IoErrorKind where
  | brokenPipe
  | other
deriving DecidableEq

/-- A `std::io::Error`: either an OS error carrying an errno
(`io::Error::last_os_error`, or a nix errno converted by `?`), or a
custom error built by `io::Error::new(kind, msg)`. -/
inductive IoError where
  | os (e : Errno)
  | custom (kind : IoErrorKind) (msg : String)
deriving DecidableEq

/-- A nix call followed by the `?` operator: the errno is converted into
an `io::Error` OS error. -/
def tryS (req : SysReq) (s : OS) : Except IoError Int × OS :=
  match sys req s with
  | (.ok n, s) => (.ok n, s)
  | (.error e, s) => (.error (.os e), s)

/-- The `O_RDWR` open flag (Linux value). -/
def o_RDWR : Int := 2

/-- The `O_NOCTTY` open flag (Linux value). -/
def o_NOCTTY : Int := 256

/-- The `FD_CLOEXEC` descriptor flag (value 1). -/
def fd_CLOEXEC : Int := 1

/-- The struct `IoFd(OwnedFd)`: a wrapper around one owned descriptor. -/
structure IoFd where
  fd : Int
deriving DecidableEq

/-- Embedding of `IoFd::exists` (named `fdExists` because `exists` is a
reserved word in Lean):
`fcntl(self.0.as_raw_fd(), FcntlArg::F_GETFD).unwrap_or(-1) != -1`. -/
def IoFd.fdExists (f : IoFd) (s : OS) : Bool × OS :=
  match sys (.fcntlGetfd f.fd) s with
  | (r, s) => ((match r with | .ok n => n | .error _ => (-1 : Int)) != -1, s)

/-- The custom error built on the closed-descriptor path:
`io::Error::new(ErrorKind::BrokenPipe, "File Descriptor Closed")`. -/
def brokenPipeErr : IoError := .custom .brokenPipe "File Descriptor Closed"

/-- Embedding of `io::Read for IoFd`: liveness check, then
`File::from(self.0.try_clone()?).read(buf)`.  `buf` enters only through
its length. -/
def IoFd.read (f : IoFd) (len : Nat) (s : OS) : Except IoError Int × OS :=
  match f.fdExists s with
  | (true, s) =>
    match sys (.tryClone f.fd) s with
    | (.error e, s) => (.error (.os e), s)
    | (.ok d, s) =>
      match sys (.readFd d len) s with
      | (.error e, s) => (.error (.os e), s)
      | (.ok n, s) => (.ok n, s)
  | (false, s) => (.error brokenPipeErr, s)

/-- Embedding of `io::Write::write for IoFd`: liveness check, then
`File::from(self.0.try_clone()?).write(buf)`. -/
def IoFd.write (f : IoFd) (len : Nat) (s : OS) : Except IoError Int × OS :=
  match f.fdExists s with
  | (true, s) =>
    match sys (.tryClone f.fd) s with
    | (.error e, s) => (.error (.os e), s)
    | (.ok d, s) =>
      match sys (.writeFd d len) s with
      | (.error e, s) => (.error (.os e), s)
      | (.ok n, s) => (.ok n, s)
  | (false, s) => (.error brokenPipeErr, s)

/-- Embedding of `io::Write::flush for IoFd`: liveness check, then
`File::from(self.0.try_clone()?).flush()`.  `std::fs::File::flush` is a
no-op returning `Ok(())`, so after a successful duplication no further
system call happens. -/
def IoFd.flush (f : IoFd) (s : OS) : Except IoError Unit × OS :=
  match f.fdExists s with
  | (true, s) =>
    match sys (.tryClone f.fd) s with
    | (.error e, s) => (.error (.os e), s)
    | (.ok _, s) => (.ok (), s)
  | (false, s) => (.error brokenPipeErr, s)

/-- The raw descriptor of the standard input of the calling process. -/
def stdinRawFd : Int := 0

/-- Embedding of `impl From(Stdin) for IoFd`:
`Self(value.as_fd().try_clone_to_owned().unwrap())`.  The `unwrap`
panics when the duplication fails; the panic is modelled as `none`.
The conversion has no error-returning variant in its type. -/
def IoFd.fromStdin (s : OS) : Option IoFd × OS :=
  match sys (.tryClone stdinRawFd) s with
  | (.ok d, s) => (some ⟨d⟩, s)
  | (.error _, s) => (none, s)

/-- The launch specification (`std::process::Command`) as the library
touches it: the three standard-stream bindings installed by
`command.stdin/stdout/stderr`, and the owner descriptor captured by the
registered `pre_exec` closure. -/
structure Command where
  stdinFd : Option Int
  stdoutFd : Option Int
  stderrFd : Option Int
  preExecOwnerFd : Option Int
deriving DecidableEq

/-- The struct `Terminal`: the PTY owner descriptor, the two optional
owner-side I/O handles, and the child process handle (its pid). -/
structure Terminal where
  owner : Int
  stdin : Option IoFd
  stdout : Option IoFd
  child : Int
deriving DecidableEq

/-- Embedding of the `pre_exec` closure registered by `Terminal::open`,
run in the child between fork and exec:
`if close(o_fd) != 0 || setsid() < 0 || ioctl(0, TIOCSCTTY.into(), 1) != 0
 { return Err(io::Error::last_os_error()); } Ok(())`.
The `||` operator short-circuits, so a failing step prevents the later
steps from running. -/
def preExecHook (o_fd : Int) (s : OS) : Except IoError Unit × OS :=
  match raw (.closeFd o_fd) s with
  | (c, s) =>
    if c != 0 then (.error (.os s.errno), s)
    else
      match raw .setsid s with
      | (v, s) =>
        if v < 0 then (.error (.os s.errno), s)
        else
          match raw .ioctlSetCtty s with
          | (i, s) =>
            if i != 0 then (.error (.os s.errno), s)
            else (.ok (), s)

/-- Embedding of `Terminal::open` (named `openPty` because `open` is a
reserved word in Lean).  The steps appear in the order the Rust source
evaluates them; in particular the fields of the final struct literal are
evaluated in the textual order `stdin`, `stdout`, `child`, so the two
owner-side duplicates are produced by `try_clone_to_owned` before
`command.spawn()` runs.  The mutated `Command` is returned alongside the
`Terminal` so the child stream bindings can be observed. -/
def Terminal.openPty (cmd : Command) (s : OS) :
    Except IoError (Terminal × Command) × OS :=
  match tryS (.posixOpenpt (Int.lor o_RDWR o_NOCTTY)) s with
  | (.error e, s) => (.error e, s)
  | (.ok owner, s) =>
  match tryS (.grantpt owner) s with
  | (.error e, s) => (.error e, s)
  | (.ok _, s) =>
  match tryS (.unlockpt owner) s with
  | (.error e, s) => (.error e, s)
  | (.ok _, s) =>
  match tryS (.fcntlGetfd owner) s with
  | (.error e, s) => (.error e, s)
  | (.ok g, s) =>
  match tryS (.fcntlSetfd owner (Int.lor g fd_CLOEXEC)) s with
  | (.error e, s) => (.error e, s)
  | (.ok _, s) =>
  match tryS (.ptsnameR owner) s with
  | (.error e, s) => (.error e, s)
  | (.ok name, s) =>
  match tryS (.openPts name) s with
  | (.error e, s) => (.error e, s)
  | (.ok pup, s) =>
  match tryS (.tryClone pup) s with
  | (.error e, s) => (.error e, s)
  | (.ok c0, s) =>
  let cmd := { cmd with stdinFd := some c0 }
  match tryS (.tryClone pup) s with
  | (.error e, s) => (.error e, s)
  | (.ok c1, s) =>
  let cmd := { cmd with stdoutFd := some c1 }
  match tryS (.tryClone pup) s with
  | (.error e, s) => (.error e, s)
  | (.ok c2, s) =>
  let cmd := { cmd with stderrFd := some c2 }
  let cmd := { cmd with preExecOwnerFd := some owner }
  match tryS (.tryClone owner) s with
  | (.error e, s) => (.error e, s)
  | (.ok m0, s) =>
  match tryS (.tryClone owner) s with
  | (.error e, s) => (.error e, s)
  | (.ok m1, s) =>
  match tryS .spawn s with
  | (.error e, s) => (.error e, s)
  | (.ok child, s) =>
    (.ok ({ owner := owner, stdin := some ⟨m0⟩, stdout := some ⟨m1⟩,
            child := child }, cmd), s)

/-- Embedding of `Terminal::resize`:
`match ioctl(owner, TIOCSWINSZ, size) != 0
 { true => Err(io::Error::last_os_error()), false => Ok(()) }`. -/
def Terminal.resize (t : Terminal) (size : Winsize) (s : OS) :
    Except IoError Unit × OS :=
  match raw (.ioctlSetWinsz t.owner size) s with
  | (r, s) => if r != 0 then (.error (.os s.errno), s) else (.ok (), s)

/-- The descriptors a Terminal value holds: its owner descriptor and the
descriptors wrapped by its two optional I/O handles. -/
def Terminal.heldFds (t : Terminal) : List Int :=
  [t.owner] ++
  (match t.stdin with | some f => [f.fd] | none => []) ++
  (match t.stdout with | some f => [f.fd] | none => [])

/-- An oracle on which every system call fails with errno 9 (EBADF). -/
def errOracle : Nat → SysReq → SysRet := fun _ _ => .error 9

/-- An oracle on which the k-th system call succeeds returning k. -/
def okOracle : Nat → SysReq → SysRet := fun k _ => .ok (Int.ofNat k)

/-- An oracle on which close and ioctl succeed returning 0 and setsid
succeeds returning a session id of 1. -/
def hookOracle : Nat → SysReq → SysRet := fun _ req =>
  match req with
  | .setsid => .ok 1
  | _ => .ok 0

/-- An oracle on which descriptor duplication fails with errno 9 and
every other call succeeds returning 0. -/
def dupFailOracle : Nat → SysReq → SysRet := fun _ req =>
  match req with
  | .tryClone _ => .error 9
  | _ => .ok 0

/-- An OS state at call index 0 with an empty log over a given oracle. -/
def initOS (o : Nat → SysReq → SysRet) : OS :=
  { oracle := o, count := 0, log := [], errno := 0 }

/-- A bitwise or with 1 makes a natural number odd. -/
theorem lor_one_odd (m : Nat) : (m ||| 1) % 2 = 1 := by
  simp

/-- A bitwise or with 1 makes a nonnegative integer odd. -/
theorem int_lor_one_odd (g : Int) (hg : 0 ≤ g) : (Int.lor g 1) % 2 = 1 := by
  obtain ⟨m, rfl⟩ := Int.eq_ofNat_of_zero_le hg
  show Int.lor (Int.ofNat m) (Int.ofNat 1) % 2 = 1
  rw [show Int.lor (Int.ofNat m) (Int.ofNat 1) = Int.ofNat (m ||| 1) from rfl]
  rw [show Int.ofNat (m ||| 1) % 2 = Int.ofNat ((m ||| 1) % 2) from rfl]
  rw [lor_one_odd m]
  rfl

/-- Characterization of a fully successful `Terminal::open` run: given the
oracle answers for the thirteen system calls the function issues, the run
returns the Terminal and mutated Command shown, and appends exactly the
thirteen events to the log in the order the source evaluates them. -/
theorem openPty_success (cmd : Command) (s : OS)
    (owner r1 r2 g r4 name pup c0 c1 c2 m0 m1 child : Int)
    (h0 : s.oracle s.count (.posixOpenpt (Int.lor o_RDWR o_NOCTTY)) = .ok owner)
    (h1 : s.oracle (s.count + 1) (.grantpt owner) = .ok r1)
    (h2 : s.oracle (s.count + 2) (.unlockpt owner) = .ok r2)
    (h3 : s.oracle (s.count + 3) (.fcntlGetfd owner) = .ok g)
    (h4 : s.oracle (s.count + 4) (.fcntlSetfd owner (Int.lor g fd_CLOEXEC)) = .ok r4)
    (h5 : s.oracle (s.count + 5) (.ptsnameR owner) = .ok name)
    (h6 : s.oracle (s.count + 6) (.openPts name) = .ok pup)
    (h7 : s.oracle (s.count + 7) (.tryClone pup) = .ok c0)
    (h8 : s.oracle (s.count + 8) (.tryClone pup) = .ok c1)
    (h9 : s.oracle (s.count + 9) (.tryClone pup) = .ok c2)
    (h10 : s.oracle (s.count + 10) (.tryClone owner) = .ok m0)
    (h11 : s.oracle (s.count + 11) (.tryClone owner) = .ok m1)
    (h12 : s.oracle (s.count + 12) .spawn = .ok child) :
    (Terminal.openPty cmd s).1 = .ok
      ({ owner := owner, stdin := some ⟨m0⟩, stdout := some ⟨m1⟩, child := child },
       { cmd with stdinFd := some c0, stdoutFd := some c1, stderrFd := some c2,
                  preExecOwnerFd := some owner }) ∧
    (Terminal.openPty cmd s).2.log = s.log ++
      [(.posixOpenpt (Int.lor o_RDWR o_NOCTTY), .ok owner),
       (.grantpt owner, .ok r1),
       (.unlockpt owner, .ok r2),
       (.fcntlGetfd owner, .ok g),
       (.fcntlSetfd owner (Int.lor g fd_CLOEXEC), .ok r4),
       (.ptsnameR owner, .ok name),
       (.openPts name, .ok pup),
       (.tryClone pup, .ok c0),
       (.tryClone pup, .ok c1),
       (.tryClone pup, .ok c2),
       (.tryClone owner, .ok m0),
       (.tryClone owner, .ok m1),
       (.spawn, .ok child)] ∧
    (Terminal.openPty cmd s).2.count = s.count + 13 ∧
    (Terminal.openPty cmd s).2.errno = s.errno := by
  refine ⟨?_, ?_, ?_, ?_⟩ <;>
    simp [Terminal.openPty, tryS, sys, h0, h1, h2, h3, h4, h5, h6, h7, h8, h9,
          h10, h11, h12, List.append_assoc]

/-- Claim C1: when the liveness query fails (so `exists()` is false),
`read`, `write` and `flush` each fail immediately with the distinct
broken-pipe closed-descriptor error, which is not an OS error; the only
system call performed is the liveness query itself — no duplication and
no read or write reaches the descriptor, as the resulting log shows. -/
theorem closed_fd_ops_fail (f : IoFd) (len : Nat) (s : OS) (e : Errno)
    (h : s.oracle s.count (.fcntlGetfd f.fd) = .error e) :
    f.read len s = (.error brokenPipeErr,
      { s with count := s.count + 1
               log := s.log ++ [(.fcntlGetfd f.fd, .error e)]
               errno := e }) ∧
    f.write len s = (.error brokenPipeErr,
      { s with count := s.count + 1
               log := s.log ++ [(.fcntlGetfd f.fd, .error e)]
               errno := e }) ∧
    f.flush s = (.error brokenPipeErr,
      { s with count := s.count + 1
               log := s.log ++ [(.fcntlGetfd f.fd, .error e)]
               errno := e }) ∧
    (∀ e2 : Errno, brokenPipeErr ≠ IoError.os e2) := by
  refine ⟨?_, ?_, ?_, ?_⟩
  · simp [IoFd.read, IoFd.fdExists, sys, h]
  · simp [IoFd.write, IoFd.fdExists, sys, h]
  · simp [IoFd.flush, IoFd.fdExists, sys, h]
  · intro e2
    simp [brokenPipeErr]

/-- Witness for claim C1 at a concrete closed descriptor: with an oracle
failing every call with errno 9, read and flush on descriptor 3 return
the broken-pipe error after exactly one liveness query. -/
theorem closed_fd_ops_fail_witness :
    IoFd.read ⟨3⟩ 4 (initOS errOracle) = (.error brokenPipeErr,
      { oracle := errOracle, count := 1,
        log := [(.fcntlGetfd 3, .error 9)], errno := 9 }) ∧
    IoFd.flush ⟨3⟩ (initOS errOracle) = (.error brokenPipeErr,
      { oracle := errOracle, count := 1,
        log := [(.fcntlGetfd 3, .error 9)], errno := 9 }) :=
  ⟨(closed_fd_ops_fail ⟨3⟩ 4 (initOS errOracle) 9 rfl).1,
   (closed_fd_ops_fail ⟨3⟩ 4 (initOS errOracle) 9 rfl).2.2.1⟩

/-- Claim C2: `exists()` returns true exactly when the descriptor
validity query (fcntl F_GETFD) succeeds, every query failure is reported
as false, and the call performs exactly one kernel query and nothing
else.  The side condition `hwf` records the nix contract that a
successful fcntl never carries the sentinel value -1 (the wrapper turns
a raw -1 return into the error case). -/
theorem fdExists_iff_query_ok (f : IoFd) (s : OS)
    (hwf : ∀ n : Int, s.oracle s.count (.fcntlGetfd f.fd) = .ok n → n ≠ -1) :
    ((f.fdExists s).1 = true ↔
      ∃ n : Int, s.oracle s.count (.fcntlGetfd f.fd) = .ok n) ∧
    (∀ e : Errno, s.oracle s.count (.fcntlGetfd f.fd) = .error e →
      (f.fdExists s).1 = false) ∧
    (f.fdExists s).2.count = s.count + 1 ∧
    (f.fdExists s).2.log = s.log ++
      [(.fcntlGetfd f.fd, s.oracle s.count (.fcntlGetfd f.fd))] := by
  rcases hq : s.oracle s.count (.fcntlGetfd f.fd) with e | n
  · refine ⟨?_, ?_, ?_, ?_⟩ <;> simp [IoFd.fdExists, sys, hq]
  · have hn := hwf n hq
    refine ⟨?_, ?_, ?_, ?_⟩ <;> simp [IoFd.fdExists, sys, hq, hn]

/-- Witness for claim C2: on an oracle answering every call successfully,
the liveness query on descriptor 3 reports true. -/
theorem fdExists_iff_query_ok_witness :
    ((IoFd.mk 3).fdExists (initOS okOracle)).1 = true :=
  (fdExists_iff_query_ok ⟨3⟩ (initOS okOracle)
      (fun n h => by cases h; decide)).1.mpr ⟨0, rfl⟩

/-- Claim C3: the pre-exec hook performs exactly close of the inherited
owner descriptor, setsid, and the TIOCSCTTY ioctl on descriptor 0, in
that order and short-circuiting: if a step fails the later steps do not
run and the hook returns the last OS error (the errno of the failing
call); if all three succeed the hook returns unit and the log gains
exactly those three events. -/
theorem preExecHook_spec (o : Int) (s : OS) :
    (∀ e1 : Errno, s.oracle s.count (.closeFd o) = .error e1 →
      preExecHook o s = (.error (.os e1),
        { s with count := s.count + 1
                 log := s.log ++ [(.closeFd o, .error e1)]
                 errno := e1 })) ∧
    (s.oracle s.count (.closeFd o) = .ok 0 →
      (∀ e2 : Errno, s.oracle (s.count + 1) .setsid = .error e2 →
        preExecHook o s = (.error (.os e2),
          { s with count := s.count + 2
                   log := s.log ++ [(.closeFd o, .ok 0), (.setsid, .error e2)]
                   errno := e2 })) ∧
      (∀ p : Int, 0 ≤ p → s.oracle (s.count + 1) .setsid = .ok p →
        (∀ e3 : Errno, s.oracle (s.count + 2) .ioctlSetCtty = .error e3 →
          preExecHook o s = (.error (.os e3),
            { s with count := s.count + 3
                     log := s.log ++ [(.closeFd o, .ok 0), (.setsid, .ok p),
                                      (.ioctlSetCtty, .error e3)]
                     errno := e3 })) ∧
        (s.oracle (s.count + 2) .ioctlSetCtty = .ok 0 →
          preExecHook o s = (.ok (),
            { s with count := s.count + 3
                     log := s.log ++ [(.closeFd o, .ok 0), (.setsid, .ok p),
                                      (.ioctlSetCtty, .ok 0)] })))) := by
  refine ⟨?_, ?_⟩
  · intro e1 h1
    simp [preExecHook, raw, sys, h1]
  · intro h1
    refine ⟨?_, ?_⟩
    · intro e2 h2
      simp [preExecHook, raw, sys, h1, h2]
    · intro p hp h2
      have hp2 : ¬ p < 0 := not_lt.mpr hp
      refine ⟨?_, ?_⟩
      · intro e3 h3
        simp [preExecHook, raw, sys, h1, h2, h3, hp2]
      · intro h3
        simp [preExecHook, raw, sys, h1, h2, h3, hp2]

/-- Witness for claim C3: with an oracle on which close and the ioctl
return 0 and setsid returns session id 1, the hook for owner descriptor
5 succeeds after exactly the three expected calls. -/
theorem preExecHook_spec_witness :
    preExecHook 5 (initOS hookOracle) = (.ok (),
      { oracle := hookOracle, count := 3,
        log := [(.closeFd 5, .ok 0), (.setsid, .ok 1), (.ioctlSetCtty, .ok 0)],
        errno := 0 }) :=
  ((((preExecHook_spec 5 (initOS hookOracle)).2 rfl).2 1 (by decide) rfl).2 rfl)

/-- Claim C4 counterexample: on a concrete fully successful run (the
oracle answers call k with value k) the spawn event appears in the log
at a strictly later position than the owner-side duplication events, so
the child is not spawned before the two owner-side duplicates are
produced.  The first conjunct fixes the run: the owner descriptor is 0
and the two caller handles hold the duplicates 10 and 11. -/
theorem openPty_spawn_first_false :
    (Terminal.openPty ⟨none, none, none, none⟩ (initOS okOracle)).1 = .ok
      ({ owner := 0, stdin := some ⟨10⟩, stdout := some ⟨11⟩, child := 12 },
       { stdinFd := some 7, stdoutFd := some 8, stderrFd := some 9,
         preExecOwnerFd := some 0 }) ∧
    ¬ ((Terminal.openPty ⟨none, none, none, none⟩ (initOS okOracle)).2.log.findIdx
         (fun ev => ev.1 == SysReq.spawn) <
       (Terminal.openPty ⟨none, none, none, none⟩ (initOS okOracle)).2.log.findIdx
         (fun ev => ev.1 == SysReq.tryClone 0)) := by
  exact ⟨rfl, by decide⟩

/-- Claim C4 as amended: in every successful run of `Terminal::open` the
two independent owner-side duplicates (the events at positions 10 and 11
of the appended log segment) are produced before the child is spawned
(the event at position 12), and both duplicates as well as the spawn
happen before the function returns its Terminal. -/
theorem openPty_dups_then_spawn (cmd : Command) (s : OS)
    (owner r1 r2 g r4 name pup c0 c1 c2 m0 m1 child : Int)
    (h0 : s.oracle s.count (.posixOpenpt (Int.lor o_RDWR o_NOCTTY)) = .ok owner)
    (h1 : s.oracle (s.count + 1) (.grantpt owner) = .ok r1)
    (h2 : s.oracle (s.count + 2) (.unlockpt owner) = .ok r2)
    (h3 : s.oracle (s.count + 3) (.fcntlGetfd owner) = .ok g)
    (h4 : s.oracle (s.count + 4) (.fcntlSetfd owner (Int.lor g fd_CLOEXEC)) = .ok r4)
    (h5 : s.oracle (s.count + 5) (.ptsnameR owner) = .ok name)
    (h6 : s.oracle (s.count + 6) (.openPts name) = .ok pup)
    (h7 : s.oracle (s.count + 7) (.tryClone pup) = .ok c0)
    (h8 : s.oracle (s.count + 8) (.tryClone pup) = .ok c1)
    (h9 : s.oracle (s.count + 9) (.tryClone pup) = .ok c2)
    (h10 : s.oracle (s.count + 10) (.tryClone owner) = .ok m0)
    (h11 : s.oracle (s.count + 11) (.tryClone owner) = .ok m1)
    (h12 : s.oracle (s.count + 12) .spawn = .ok child) :
    (Terminal.openPty cmd s).1 = .ok
      ({ owner := owner, stdin := some ⟨m0⟩, stdout := some ⟨m1⟩, child := child },
       { cmd with stdinFd := some c0, stdoutFd := some c1, stderrFd := some c2,
                  preExecOwnerFd := some owner }) ∧
    ((Terminal.openPty cmd s).2.log.drop s.log.length).drop 10 =
      [(.tryClone owner, .ok m0),
       (.tryClone owner, .ok m1),
       (.spawn, .ok child)] := by
  obtain ⟨ha, hb, _, _⟩ := openPty_success cmd s owner r1 r2 g r4 name pup c0 c1
    c2 m0 m1 child h0 h1 h2 h3 h4 h5 h6 h7 h8 h9 h10 h11 h12
  refine ⟨ha, ?_⟩
  rw [hb]
  simp

/-- Witness for the amended claim C4 at the same concrete run as the
counterexample: the appended log segment ends with the two owner
duplications followed by the spawn. -/
theorem openPty_dups_then_spawn_witness :
    ((Terminal.openPty ⟨none, none, none, none⟩ (initOS okOracle)).2.log.drop
        (initOS okOracle).log.length).drop 10 =
      [(.tryClone 0, .ok 10), (.tryClone 0, .ok 11), (.spawn, .ok 12)] :=
  (openPty_dups_then_spawn ⟨none, none, none, none⟩ (initOS okOracle)
    0 1 2 3 4 5 6 7 8 9 10 11 12
    rfl rfl rfl rfl rfl rfl rfl rfl rfl rfl rfl rfl rfl).2

/-- Claim C5: in a successful `Terminal::open` run the standard input,
output, and error of the child are bound to the results of three
separate duplications of the subordinate descriptor (log positions 7, 8
and 9 of the appended segment), and the subordinate descriptor itself is
held by none of the returned Terminal fields: provided the kernel hands
out duplicates distinct from the subordinate descriptor, the Terminal
holds only the owner descriptor and the two owner-side duplicates. -/
theorem openPty_child_streams (cmd : Command) (s : OS)
    (owner r1 r2 g r4 name pup c0 c1 c2 m0 m1 child : Int)
    (h0 : s.oracle s.count (.posixOpenpt (Int.lor o_RDWR o_NOCTTY)) = .ok owner)
    (h1 : s.oracle (s.count + 1) (.grantpt owner) = .ok r1)
    (h2 : s.oracle (s.count + 2) (.unlockpt owner) = .ok r2)
    (h3 : s.oracle (s.count + 3) (.fcntlGetfd owner) = .ok g)
    (h4 : s.oracle (s.count + 4) (.fcntlSetfd owner (Int.lor g fd_CLOEXEC)) = .ok r4)
    (h5 : s.oracle (s.count + 5) (.ptsnameR owner) = .ok name)
    (h6 : s.oracle (s.count + 6) (.openPts name) = .ok pup)
    (h7 : s.oracle (s.count + 7) (.tryClone pup) = .ok c0)
    (h8 : s.oracle (s.count + 8) (.tryClone pup) = .ok c1)
    (h9 : s.oracle (s.count + 9) (.tryClone pup) = .ok c2)
    (h10 : s.oracle (s.count + 10) (.tryClone owner) = .ok m0)
    (h11 : s.oracle (s.count + 11) (.tryClone owner) = .ok m1)
    (h12 : s.oracle (s.count + 12) .spawn = .ok child) :
    (Terminal.openPty cmd s).1 = .ok
      ({ owner := owner, stdin := some ⟨m0⟩, stdout := some ⟨m1⟩, child := child },
       { cmd with stdinFd := some c0, stdoutFd := some c1, stderrFd := some c2,
                  preExecOwnerFd := some owner }) ∧
    (((Terminal.openPty cmd s).2.log.drop s.log.length).drop 7).take 3 =
      [(.tryClone pup, .ok c0),
       (.tryClone pup, .ok c1),
       (.tryClone pup, .ok c2)] ∧
    (pup ≠ owner → pup ≠ m0 → pup ≠ m1 →
      pup ∉ Terminal.heldFds
        { owner := owner, stdin := some ⟨m0⟩, stdout := some ⟨m1⟩,
          child := child }) := by
  obtain ⟨ha, hb, _, _⟩ := openPty_success cmd s owner r1 r2 g r4 name pup c0 c1
    c2 m0 m1 child h0 h1 h2 h3 h4 h5 h6 h7 h8 h9 h10 h11 h12
  refine ⟨ha, ?_, ?_⟩
  · rw [hb]
    simp
  · intro hno hn0 hn1
    simp [Terminal.heldFds, hno, hn0, hn1]

/-- Witness for claim C5 at the concrete fully successful run: the child
streams are the three distinct subordinate duplicates 7, 8 and 9, and
the subordinate descriptor 6 is not among the descriptors held by the
returned Terminal. -/
theorem openPty_child_streams_witness :
    ((((Terminal.openPty ⟨none, none, none, none⟩
          (initOS okOracle)).2.log.drop
            (initOS okOracle).log.length).drop 7).take 3 =
      [(.tryClone 6, .ok 7), (.tryClone 6, .ok 8), (.tryClone 6, .ok 9)]) ∧
    (6 : Int) ∉ Terminal.heldFds
      { owner := 0, stdin := some ⟨10⟩, stdout := some ⟨11⟩, child := 12 } :=
  ⟨(openPty_child_streams ⟨none, none, none, none⟩ (initOS okOracle)
      0 1 2 3 4 5 6 7 8 9 10 11 12
      rfl rfl rfl rfl rfl rfl rfl rfl rfl rfl rfl rfl rfl).2.1,
   (openPty_child_streams ⟨none, none, none, none⟩ (initOS okOracle)
      0 1 2 3 4 5 6 7 8 9 10 11 12
      rfl rfl rfl rfl rfl rfl rfl rfl rfl rfl rfl rfl rfl).2.2
      (by decide) (by decide) (by decide)⟩

/-- Claim C6: when the liveness query succeeds (so `exists()` is true),
`read` duplicates the wrapped descriptor into a fresh file view and
performs a plain read on that fresh descriptor, returning the resulting
byte count unchanged (so a 0 count is passed through as the end-of-stream
signal); `write` follows the same structure with a plain write. -/
theorem read_write_live (f : IoFd) (len : Nat) (s : OS) (g d c wc : Int)
    (hq : s.oracle s.count (.fcntlGetfd f.fd) = .ok g)
    (hg : g ≠ -1)
    (hd : s.oracle (s.count + 1) (.tryClone f.fd) = .ok d)
    (hr : s.oracle (s.count + 2) (.readFd d len) = .ok c)
    (hw : s.oracle (s.count + 2) (.writeFd d len) = .ok wc) :
    f.read len s = (.ok c,
      { s with count := s.count + 3
               log := s.log ++ [(.fcntlGetfd f.fd, .ok g),
                                (.tryClone f.fd, .ok d),
                                (.readFd d len, .ok c)] }) ∧
    f.write len s = (.ok wc,
      { s with count := s.count + 3
               log := s.log ++ [(.fcntlGetfd f.fd, .ok g),
                                (.tryClone f.fd, .ok d),
                                (.writeFd d len, .ok wc)] }) := by
  have hgb : (g != -1) = true := by simp [hg]
  constructor
  · simp [IoFd.read, IoFd.fdExists, sys, hq, hgb, hd, hr]
  · simp [IoFd.write, IoFd.fdExists, sys, hq, hgb, hd, hw]

/-- Witness for claim C6: on the oracle answering call k with value k,
reading descriptor 3 duplicates it into descriptor 1 and returns the
byte count 2 from the fresh view. -/
theorem read_write_live_witness :
    IoFd.read ⟨3⟩ 4 (initOS okOracle) = (.ok 2,
      { oracle := okOracle, count := 3,
        log := [(.fcntlGetfd 3, .ok 0), (.tryClone 3, .ok 1),
                (.readFd 1 4, .ok 2)],
        errno := 0 }) :=
  (read_write_live ⟨3⟩ 4 (initOS okOracle) 0 1 2 2
    rfl (by decide) rfl rfl rfl).1

/-- Claim C7: `resize` issues exactly the TIOCSWINSZ window-size ioctl
on the owner-side descriptor; it returns unit when the ioctl succeeds
(returns 0) and surfaces a failing ioctl as the last OS error, the errno
of that very call. -/
theorem resize_spec (t : Terminal) (size : Winsize) (s : OS) :
    (s.oracle s.count (.ioctlSetWinsz t.owner size) = .ok 0 →
      t.resize size s = (.ok (),
        { s with count := s.count + 1
                 log := s.log ++ [(.ioctlSetWinsz t.owner size, .ok 0)] })) ∧
    (∀ e : Errno, s.oracle s.count (.ioctlSetWinsz t.owner size) = .error e →
      t.resize size s = (.error (.os e),
        { s with count := s.count + 1
                 log := s.log ++ [(.ioctlSetWinsz t.owner size, .error e)]
                 errno := e })) := by
  constructor
  · intro h
    simp [Terminal.resize, raw, sys, h]
  · intro e h
    simp [Terminal.resize, raw, sys, h]

/-- Witness for claim C7: resizing a terminal whose owner descriptor is
5 succeeds on an oracle whose first call returns 0, after exactly one
window-size ioctl carrying the requested size. -/
theorem resize_spec_witness :
    Terminal.resize ⟨5, none, none, 7⟩ ⟨24, 80, 0, 0⟩ (initOS okOracle) =
      (.ok (),
       { oracle := okOracle, count := 1,
         log := [(.ioctlSetWinsz 5 ⟨24, 80, 0, 0⟩, .ok 0)], errno := 0 }) :=
  (resize_spec ⟨5, none, none, 7⟩ ⟨24, 80, 0, 0⟩ (initOS okOracle)).1 rfl

/-- Claim C8: in a successful `Terminal::open` run the owner descriptor
flags are rewritten to the queried flags bitwise-or FD_CLOEXEC (the
fcntl F_SETFD event at position 4 of the appended log segment), this
happens before the child is spawned (the event at position 12), and the
written flag word indeed has the FD_CLOEXEC bit set (it is odd). -/
theorem openPty_cloexec_before_spawn (cmd : Command) (s : OS)
    (owner r1 r2 g r4 name pup c0 c1 c2 m0 m1 child : Int)
    (hg0 : 0 ≤ g)
    (h0 : s.oracle s.count (.posixOpenpt (Int.lor o_RDWR o_NOCTTY)) = .ok owner)
    (h1 : s.oracle (s.count + 1) (.grantpt owner) = .ok r1)
    (h2 : s.oracle (s.count + 2) (.unlockpt owner) = .ok r2)
    (h3 : s.oracle (s.count + 3) (.fcntlGetfd owner) = .ok g)
    (h4 : s.oracle (s.count + 4) (.fcntlSetfd owner (Int.lor g fd_CLOEXEC)) = .ok r4)
    (h5 : s.oracle (s.count + 5) (.ptsnameR owner) = .ok name)
    (h6 : s.oracle (s.count + 6) (.openPts name) = .ok pup)
    (h7 : s.oracle (s.count + 7) (.tryClone pup) = .ok c0)
    (h8 : s.oracle (s.count + 8) (.tryClone pup) = .ok c1)
    (h9 : s.oracle (s.count + 9) (.tryClone pup) = .ok c2)
    (h10 : s.oracle (s.count + 10) (.tryClone owner) = .ok m0)
    (h11 : s.oracle (s.count + 11) (.tryClone owner) = .ok m1)
    (h12 : s.oracle (s.count + 12) .spawn = .ok child) :
    ((Terminal.openPty cmd s).2.log.drop s.log.length)[4]? =
      some (.fcntlSetfd owner (Int.lor g fd_CLOEXEC), .ok r4) ∧
    ((Terminal.openPty cmd s).2.log.drop s.log.length)[12]? =
      some (.spawn, .ok child) ∧
    Int.lor g fd_CLOEXEC % 2 = 1 := by
  obtain ⟨_, hb, _, _⟩ := openPty_success cmd s owner r1 r2 g r4 name pup c0 c1
    c2 m0 m1 child h0 h1 h2 h3 h4 h5 h6 h7 h8 h9 h10 h11 h12
  refine ⟨?_, ?_, ?_⟩
  · rw [hb]
    simp
  · rw [hb]
    simp
  · show Int.lor g 1 % 2 = 1
    exact int_lor_one_odd g hg0

/-- Witness for claim C8 at the concrete fully successful run: the
close-on-exec rewrite of the owner flags is the fifth event, the spawn
is the thirteenth, and the written flag word is odd. -/
theorem openPty_cloexec_before_spawn_witness :
    (((Terminal.openPty ⟨none, none, none, none⟩
        (initOS okOracle)).2.log.drop (initOS okOracle).log.length)[4]? =
      some (.fcntlSetfd 0 (Int.lor 3 fd_CLOEXEC), .ok 4)) ∧
    (((Terminal.openPty ⟨none, none, none, none⟩
        (initOS okOracle)).2.log.drop (initOS okOracle).log.length)[12]? =
      some (.spawn, .ok 12)) ∧
    Int.lor 3 fd_CLOEXEC % 2 = 1 :=
  openPty_cloexec_before_spawn ⟨none, none, none, none⟩ (initOS okOracle)
    0 1 2 3 4 5 6 7 8 9 10 11 12 (by decide)
    rfl rfl rfl rfl rfl rfl rfl rfl rfl rfl rfl rfl rfl

/-- Claim C9: the conversion of the standard input of the calling
process into an `IoFd` duplicates descriptor 0 and wraps the duplicate;
when the duplication fails the conversion panics (modelled as `none`).
Its result type `Option IoFd` reflects that the conversion has no
error-returning path: the only outcomes are a wrapped descriptor or a
panic. -/
theorem fromStdin_spec (s : OS) :
    (∀ d : Int, s.oracle s.count (.tryClone stdinRawFd) = .ok d →
      IoFd.fromStdin s = (some ⟨d⟩,
        { s with count := s.count + 1
                 log := s.log ++ [(.tryClone stdinRawFd, .ok d)] })) ∧
    (∀ e : Errno, s.oracle s.count (.tryClone stdinRawFd) = .error e →
      IoFd.fromStdin s = (none,
        { s with count := s.count + 1
                 log := s.log ++ [(.tryClone stdinRawFd, .error e)]
                 errno := e })) := by
  constructor
  · intro d h
    simp [IoFd.fromStdin, sys, h]
  · intro e h
    simp [IoFd.fromStdin, sys, h]

/-- Witness for claim C9: on an oracle failing every call with errno 9,
the conversion from standard input panics. -/
theorem fromStdin_spec_witness :
    IoFd.fromStdin (initOS errOracle) = (none,
      { oracle := errOracle, count := 1,
        log := [(.tryClone stdinRawFd, .error 9)], errno := 9 }) :=
  (fromStdin_spec (initOS errOracle)).2 9 rfl

/-- Claim C10: when the liveness query succeeds but duplicating the
descriptor into the fresh file view fails, `read`, `write` and `flush`
each return the OS error carrying the errno of the failed duplication —
not the broken-pipe custom error, which differs from every OS error —
so not every closure-related failure carries the broken-pipe kind. -/
theorem ops_dup_failure_os_error (f : IoFd) (len : Nat) (s : OS)
    (g : Int) (e : Errno)
    (hq : s.oracle s.count (.fcntlGetfd f.fd) = .ok g)
    (hg : g ≠ -1)
    (hd : s.oracle (s.count + 1) (.tryClone f.fd) = .error e) :
    f.read len s = (.error (.os e),
      { s with count := s.count + 2
               log := s.log ++ [(.fcntlGetfd f.fd, .ok g),
                                (.tryClone f.fd, .error e)]
               errno := e }) ∧
    f.write len s = (.error (.os e),
      { s with count := s.count + 2
               log := s.log ++ [(.fcntlGetfd f.fd, .ok g),
                                (.tryClone f.fd, .error e)]
               errno := e }) ∧
    f.flush s = (.error (.os e),
      { s with count := s.count + 2
               log := s.log ++ [(.fcntlGetfd f.fd, .ok g),
                                (.tryClone f.fd, .error e)]
               errno := e }) ∧
    (∀ k : IoErrorKind, ∀ msg : String, IoError.os e ≠ .custom k msg) := by
  have hgb : (g != -1) = true := by simp [hg]
  refine ⟨?_, ?_, ?_, ?_⟩
  · simp [IoFd.read, IoFd.fdExists, sys, hq, hgb, hd]
  · simp [IoFd.write, IoFd.fdExists, sys, hq, hgb, hd]
  · simp [IoFd.flush, IoFd.fdExists, sys, hq, hgb, hd]
  · intro k msg
    simp

/-- Witness for claim C10: with an oracle on which duplication fails
with errno 9 and the liveness query succeeds, read on descriptor 3
surfaces the OS error 9 rather than the broken-pipe error. -/
theorem ops_dup_failure_os_error_witness :
    IoFd.read ⟨3⟩ 4 (initOS dupFailOracle) = (.error (.os 9),
      { oracle := dupFailOracle, count := 2,
        log := [(.fcntlGetfd 3, .ok 0), (.tryClone 3, .error 9)],
        errno := 9 }) ∧
    IoError.os 9 ≠ brokenPipeErr :=
  ⟨(ops_dup_failure_os_error ⟨3⟩ 4 (initOS dupFailOracle) 0 9
      rfl (by decide) rfl).1,
   (ops_dup_failure_os_error ⟨3⟩ 4 (initOS dupFailOracle) 0 9
      rfl (by decide) rfl).2.2.2 .brokenPipe "File Descriptor Closed"⟩

end Termu
